import Mathlib

/-!
Verification of the Stutterless speech-coaching backend (`src/backend/server.js`).

The development shallowly embeds the three cores of the server — the
heuristic analyzer (`analyzeHeuristics`, lines 79–90), the challenge state
machine (`POST /challenge/start` and `POST /challenge/tick`, lines 142–182),
and the progression engine (`updateGamification`, lines 46–77) — and proves
or refutes the specification's claims about them.

JS numbers that stay integral in the source are modelled as `Int` (or `Nat`
for pure counters), `Math.floor` of a quotient as `Int.fdiv`, JS `Date.now()`
instants and calendar-date strings as explicit parameters, and the per-user
in-memory registries as explicit state threading: a tick returns the HTTP
JSON payload together with the registry entry after the request (`some` =
record persists, `none` = record deleted).  The only non-integral arithmetic
in the source, `dailyMinutes += sessionDurationSec / 60`, is modelled over
`ℚ`; no claim depends on its value.  The JS string primitives
`toLowerCase` / `trim` / `split(/\s+/)` are modelled by structurally
recursive functions on the character list so that all definitions evaluate.
-/

/-- Model of JS `String.prototype.trim`: drop whitespace from both ends. -/
def jsTrim (s : String) : String :=
  ⟨((s.data.dropWhile Char.isWhitespace).reverse.dropWhile Char.isWhitespace).reverse⟩

/-- Splits a character stream on whitespace runs, accumulating the current
word in reverse; empty pieces are dropped, exactly as the source's
`.split(/\s+/).filter(Boolean)` does. -/
def splitWsAux : List Char → List Char → List String
  | [], acc => if acc.isEmpty then [] else [⟨acc.reverse⟩]
  | c :: cs, acc =>
    if c.isWhitespace then
      (if acc.isEmpty then [] else [⟨acc.reverse⟩]) ++ splitWsAux cs []
    else
      splitWsAux cs (c :: acc)

/-- From `server.js` line 80 (and line 164): `text.toLowerCase().split(/\s+/).filter(Boolean)`. -/
def tokenize (text : String) : List String :=
  splitWsAux (text.data.map Char.toLower) []

/-- From `server.js` line 81: the analyzer's filler lexicon. -/
def fillerWords : List String := ["um", "uh", "erm", "hmm", "like"]

/-- From `server.js` lines 83–84: the `words[i] === words[i-1]` count of the loop
running over `i = 1 .. words.length - 1`. -/
def countRepeats : List String → Nat
  | a :: b :: rest => (if b == a then 1 else 0) + countRepeats (b :: rest)
  | _ => 0

/-- From `server.js` lines 83–85: the `fillerWords.has(words[i])` count of the same
loop.  The loop index starts at 1, so the token at index 0 is never tested. -/
def countFillers (ws : List String) : Nat :=
  (ws.drop 1).countP (fun w => fillerWords.contains w)

structure HeuristicResult where
  score : Int
  repeats : Nat
  fillers : Nat
  deriving Repr, DecidableEq

/-- From `server.js` lines 79–90.  The source also returns a constant `issues: []`
field, omitted here.  `score = 100 - 10*repeats - 5*fillers`, floored at 30. -/
def analyzeHeuristics (text : String) : HeuristicResult :=
  let words := tokenize text
  let repeats := countRepeats words
  let fillers := countFillers words
  let score : Int := 100 - (repeats : Int) * 10 - (fillers : Int) * 5
  ⟨if score < 30 then 30 else score, repeats, fillers⟩

/-- Spec-side definition for the refinement comparison of claim C1, following
the spec's words: "`fillers` counts tokens present in a fixed filler lexicon"
— i.e. every token is tested, including the first. -/
def specFillerCount (text : String) : Nat :=
  (tokenize text).countP (fun w => fillerWords.contains w)

-- Sanity examples while developing.
example : tokenize "I I am fine" = ["i", "i", "am", "fine"] := by decide
example : analyzeHeuristics "um" = ⟨100, 0, 0⟩ := by decide
example : analyzeHeuristics "hello um" = ⟨95, 0, 1⟩ := by decide
example : analyzeHeuristics "" = ⟨100, 0, 0⟩ := by decide
example : jsTrim "  hi there " = "hi there" := by decide

/-! ## Challenge state machine (`server.js` lines 141–182) -/

/-- One active challenge record (`server.js` line 145).  Instants are `Int`
milliseconds standing for `Date.now()` values. -/
structure Challenge where
  startTime : Int
  lastTranscript : String
  lastChangeTime : Int
  isSpeaking : Bool
  deriving Repr, DecidableEq

/-- The JSON payload of a tick response: `{status: "ok"}` or
`{status: "fail", reason}`. -/
structure TickResponse where
  status : String
  reason : Option String
  deriving Repr, DecidableEq

/-- From `server.js` line 165: the tick's filler lexicon (larger than the
analyzer's). -/
def challengeFillers : List String := ["um", "uh", "like", "hmm", "erm", "aa", "er"]

/-- From `server.js` line 167: the loop returning at the first `i ≥ 1` with
`words[i] === words[i-1]`; the reason cites `words[i]` twice. -/
def findAdjacentRepeat : List String → Option String
  | a :: b :: rest => if b == a then some b else findAdjacentRepeat (b :: rest)
  | _ => none

/-- From `server.js` lines 163–168: the instant-fail scans run on every non-empty
tick.  Returns the fail reason if a scan fires: first the filler scan over
all tokens, then the adjacent-repetition scan. -/
def instantFail (cleanText : String) : Option String :=
  if 0 < cleanText.length then
    let words := tokenize cleanText
    match words.find? (fun w => challengeFillers.contains w) with
    | some w => some ("Stuttered: \"" ++ w ++ "\"")
    | none =>
      match findAdjacentRepeat words with
      | some w => some ("Repetition: \"" ++ w ++ " " ++ w ++ "\"")
      | none => none
  else none

/-- From `server.js` line 145 (`POST /challenge/start`): the fresh record.  A
pre-existing record for the same user is silently replaced. -/
def startChallenge (now : Int) : Challenge :=
  ⟨now, "", now, false⟩

/-- From `server.js` lines 149–182 (`POST /challenge/tick`) for a user whose
record exists (the absent-record case is a 404 before any of this runs).
Returns the JSON payload and the registry entry after the request:
`some c'` when the record persists, `none` when it was deleted on a fail. -/
def tick (c0 : Challenge) (now : Int) (transcript : Option String) :
    TickResponse × Option Challenge :=
  let cleanText := jsTrim (transcript.getD "")
  let c :=
    if c0.isSpeaking = false ∧ 0 < cleanText.length then
      { c0 with isSpeaking := true, lastChangeTime := now, lastTranscript := cleanText }
    else c0
  match instantFail cleanText with
  | some reason => (⟨"fail", some reason⟩, none)
  | none =>
    if c.isSpeaking then
      if cleanText ≠ c.lastTranscript then
        (⟨"ok", none⟩, some { c with lastChangeTime := now, lastTranscript := cleanText })
      else if now - c.lastChangeTime > 3000 then
        (⟨"fail", some "Silence detected (> 3s)"⟩, none)
      else (⟨"ok", none⟩, some c)
    else (⟨"ok", none⟩, some c)

-- Sanity examples while developing.
example : instantFail "um hello" = some "Stuttered: \"um\"" := by decide
example : instantFail "I I am fine" = some "Repetition: \"i i\"" := by decide
example : tick (startChallenge 0) 100 (some "hello") =
    (⟨"ok", none⟩, some ⟨0, "hello", 100, true⟩) := by decide
example : tick ⟨0, "hello", 100, true⟩ 3200 (some "hello") =
    (⟨"fail", some "Silence detected (> 3s)"⟩, none) := by decide
example : tick ⟨0, "hello", 100, true⟩ 3000 (some "hello") =
    (⟨"ok", none⟩, some ⟨0, "hello", 100, true⟩) := by decide
example : tick ⟨0, "hello", 100, true⟩ 9999 (some " ") =
    (⟨"ok", none⟩, some ⟨0, "", 9999, true⟩) := by decide

/-! ## User profiles and the progression engine (`server.js` lines 28–77, 107–125, 188–196) -/

structure Stats where
  totalSessions : Nat
  totalSeconds : Int
  dailyMinutes : ℚ
  deriving DecidableEq

/-- A user-profile record.  The `/coach` fallback profile (line 194) carries
no `password` property, hence `Option`. -/
structure User where
  username : String
  password : Option String
  xp : Int
  level : Int
  streak : Int
  lastActiveDate : Option String
  badges : List String
  stats : Stats
  deriving DecidableEq

/-- From `server.js` line 47: `Math.floor(xp / 100) + 1` (floor division). -/
def calculateLevel (xp : Int) : Int := Int.fdiv xp 100 + 1

/-- From `server.js` lines 32–41: the seeded demo user.  `new Date()`'s calendar
date is the explicit `today` parameter. -/
def seedUser (today : String) : User :=
  ⟨"Demo User", some "123", 120, 2, 1, some today, ["First Step"], ⟨5, 300, 5⟩⟩

/-- From `server.js` lines 114–123 (`POST /users`): the freshly registered
profile, with the username trimmed as on line 111. -/
def registerUser (username password : String) : User :=
  ⟨jsTrim username, some password, 0, 1, 0, none, [], ⟨0, 0, 0⟩⟩

/-- From `server.js` line 194: the profile created lazily by `/coach` when the
registry lookup fails. -/
def coachFallbackUser (userId : String) : User :=
  ⟨userId, none, 0, 1, 0, none, [], ⟨0, 0, 0⟩⟩

/-- From `server.js` lines 51–54: session/seconds counters and the daily-minutes
reset-then-accumulate. -/
def applyStats (u : User) (sessionDurationSec : Int) (today : String) : User :=
  { u with stats :=
    { totalSessions := u.stats.totalSessions + 1
      totalSeconds := u.stats.totalSeconds + sessionDurationSec
      dailyMinutes :=
        (if u.lastActiveDate ≠ some today then 0 else u.stats.dailyMinutes)
          + (sessionDurationSec : ℚ) / 60 } }

/-- From `server.js` lines 55–64: the streak update, run only when
`lastActiveDate !== today`; `yesterday` is the calendar date the source
computes from the clock. -/
def applyStreak (u : User) (today yesterday : String) : User :=
  if u.lastActiveDate ≠ some today then
    { u with
      streak := if u.lastActiveDate = some yesterday then u.streak + 1 else 1
      lastActiveDate := some today }
  else u

/-- From `server.js` lines 65–66: `10 + Math.floor(sessionDurationSec / 10)`,
plus 20 when `fluencyScore >= 80`. -/
def earnedXpOf (sessionDurationSec fluencyScore : Int) : Int :=
  10 + Int.fdiv sessionDurationSec 10 + (if fluencyScore ≥ 80 then 20 else 0)

/-- From `server.js` lines 67–68: add the earned xp and recompute the level. -/
def applyXp (u : User) (earnedXp : Int) : User :=
  { u with xp := u.xp + earnedXp, level := calculateLevel (u.xp + earnedXp) }

/-- From `server.js` line 70: `awardBadge` pushes the badge onto the profile and
onto `newBadges` unless the profile already holds it. -/
def awardBadge (name : String) : User × List String → User × List String
  | (u, nb) =>
    if u.badges.contains name then (u, nb)
    else ({ u with badges := u.badges ++ [name] }, nb ++ [name])

/-- From `server.js` lines 69–76: the five guarded badge awards, in source order.
The guards read fields `awardBadge` never changes, so they are evaluated on
the pre-badge profile exactly as in the source. -/
def applyBadges (u : User) (fluencyScore : Int) : User × List String :=
  let p := (u, ([] : List String))
  let p := if u.stats.totalSessions ≥ 1 then awardBadge "First Step" p else p
  let p := if u.stats.totalSessions ≥ 10 then awardBadge "Dedicated Speaker" p else p
  let p := if u.streak ≥ 3 then awardBadge "Consistency Champion" p else p
  let p := if fluencyScore ≥ 90 then awardBadge "Smooth Speaker" p else p
  let p := if u.xp ≥ 500 then awardBadge "XP Hunter" p else p
  p

/-- From `server.js` lines 49–77: the whole progression-engine call, returning the
mutated profile together with `{earnedXp, newBadges}`. -/
def updateGamification (u : User) (sessionDurationSec fluencyScore : Int)
    (today yesterday : String) : User × Int × List String :=
  let u1 := applyStats u sessionDurationSec today
  let u2 := applyStreak u1 today yesterday
  let e := earnedXpOf sessionDurationSec fluencyScore
  let u3 := applyXp u2 e
  let p := applyBadges u3 fluencyScore
  (p.1, e, p.2)

-- Sanity examples while developing.
example : (updateGamification (registerUser "bob" "pw") 60 95 "2026-10-11" "2026-10-10").1.xp
    = 36 := by decide
example : (updateGamification (registerUser "bob" "pw") 60 95 "2026-10-11" "2026-10-10").2.2
    = ["First Step", "Smooth Speaker"] := by decide
example : (updateGamification (registerUser "bob" "pw") (-200) 0 "2026-10-11" "2026-10-10").1.xp
    = -10 := by decide
example : (updateGamification (seedUser "2026-10-11") 0 0 "2026-10-11" "2026-10-10").1.streak
    = 1 := by decide

/-! ## Generic helpers -/

/-- Holds when `needle` occurs verbatim (case-sensitively) inside `haystack`; the
reading of "reason mentioning X" used throughout. -/
def mentionsIn (needle haystack : String) : Prop :=
  needle.data <:+: haystack.data

instance (needle haystack : String) : Decidable (mentionsIn needle haystack) :=
  List.decidableInfix needle.data haystack.data

theorem mentionsIn_append_middle (pre w suf : String) :
    mentionsIn w (pre ++ w ++ suf) := by
  refine ⟨pre.data, suf.data, ?_⟩
  simp [String.data_append]

/-- The analyzer's repeat counter agrees with the "number of adjacent
identical token pairs" formulation. -/
theorem countRepeats_eq_zip : ∀ ws : List String,
    countRepeats ws = ((ws.zip ws.tail).countP fun p => p.1 == p.2)
  | [] => rfl
  | [_] => rfl
  | a :: b :: rest => by
    have ih := countRepeats_eq_zip (b :: rest)
    simp only [countRepeats, List.tail_cons, List.zip_cons_cons, List.countP_cons, ih,
      beq_iff_eq]
    by_cases h : a = b
    · simp [h, Nat.add_comm]
    · simp [h, Ne.symm h]

example : mentionsIn "um" "Stuttered: \"um\"" := by decide
example : ¬ mentionsIn "I I" "Repetition: \"i i\"" := by decide

/-! ## Claim C1 — heuristic analyzer -/

/-- C1, counterexample.  The claim says `fillers` is the number of tokens
belonging to the lexicon; on the input `"um"` the lexicon-token count is 1,
but the analyzer reports `fillers = 0` (its loop starts at index 1, so the
first token is never tested) and hence `score = 100` instead of 95. -/
theorem C1_counterexample :
    (analyzeHeuristics "um").fillers = 0 ∧ specFillerCount "um" = 1 ∧
    (analyzeHeuristics "um").score = 100 := by decide

/-- C1, amended: tokenization is whitespace-splitting after lowercasing with
empty tokens dropped; `repeats` is the number of adjacent identical token
pairs; `fillers` is the number of lexicon tokens **at positions after the
first** (the first token is never counted); `score = 100 - 10*repeats -
5*fillers` floored at 30, hence always in `[30, 100]`, and `score = 100` iff
both counts are zero; empty text yields score 100 with zero counts. -/
theorem C1_heuristic_analyzer (text : String) :
    30 ≤ (analyzeHeuristics text).score ∧ (analyzeHeuristics text).score ≤ 100 ∧
    ((analyzeHeuristics text).score = 100 ↔
      (analyzeHeuristics text).repeats = 0 ∧ (analyzeHeuristics text).fillers = 0) ∧
    (analyzeHeuristics text).repeats
      = (((tokenize text).zip (tokenize text).tail).countP fun p => p.1 == p.2) ∧
    (analyzeHeuristics text).fillers
      = (((tokenize text).drop 1).countP fun w => fillerWords.contains w) ∧
    analyzeHeuristics "" = ⟨100, 0, 0⟩ := by
  have hzip := countRepeats_eq_zip (tokenize text)
  dsimp only [analyzeHeuristics]
  refine ⟨?_, ?_, ?_, hzip, rfl, by decide⟩ <;> split <;> omega

/-! ## Supporting lemmas about the tick -/

theorem tokenize_empty (s : String) (h : s.length = 0) : tokenize s = [] := by
  obtain ⟨cs⟩ := s
  cases cs with
  | nil => rfl
  | cons c cs => simp [String.length] at h

theorem instantFail_empty (s : String) (h : s.length = 0) : instantFail s = none := by
  simp [instantFail, h]

/-- Once the instant-fail scans pass on a transcript, every record the tick
leaves behind with an "ok" response again stores a scan-clean
`lastTranscript` — so every reachable active record (they all start from
`startChallenge`, whose `lastTranscript` is `""`) is scan-clean.  This
justifies the scan-clean hypothesis of the claim-C2 theorem. -/
theorem tick_ok_clean (c : Challenge) (now : Int) (t : Option String) (c' : Challenge)
    (hc : instantFail c.lastTranscript = none)
    (h : tick c now t = (⟨"ok", none⟩, some c')) :
    instantFail c'.lastTranscript = none := by
  simp only [tick] at h
  cases hif : instantFail (jsTrim (t.getD "")) with
  | some r => rw [hif] at h; simp at h
  | none =>
    rw [hif] at h
    split at h
    next heq => exact absurd heq (by simp)
    next =>
      split at h
      · -- speaking onset occurred on this tick
        split at h
        · rw [if_neg (by simp)] at h
          split at h
          · simp at h
          · have h2 := congrArg Prod.snd h
            simp only [Option.some.injEq] at h2
            subst h2
            simpa using hif
        · simp_all
      · -- no onset
        split at h
        · split at h
          · -- transcript changed: the record stores the new clean text
            have h2 := congrArg Prod.snd h
            simp only [Option.some.injEq] at h2
            subst h2
            simpa using hif
          · -- transcript unchanged: timeout test
            split at h
            · simp at h
            · have h2 := congrArg Prod.snd h
              simp only [Option.some.injEq] at h2
              subst h2
              exact hc
        · have h2 := congrArg Prod.snd h
          simp only [Option.some.injEq] at h2
          subst h2
          exact hc

/-! ## Claim C2 — silence timeout -/

/-- C2.  For an active challenge in the speaking state (its stored
`lastTranscript` is scan-clean, as `tick_ok_clean` shows all reachable
records are), a tick whose normalized transcript equals `lastTranscript`
fails with the silence reason and deletes the record exactly when more than
3000 ms have elapsed since `lastChangeTime`, and otherwise answers "ok"
with the record unchanged. -/
theorem C2_silence_timeout (c : Challenge) (now : Int) (t : String)
    (hs : c.isSpeaking = true)
    (ht : jsTrim t = c.lastTranscript)
    (hclean : instantFail c.lastTranscript = none) :
    tick c now (some t) =
      if now - c.lastChangeTime > 3000 then
        ((⟨"fail", some "Silence detected (> 3s)"⟩ : TickResponse), (none : Option Challenge))
      else (⟨"ok", none⟩, some c) := by
  simp only [tick, Option.getD_some, ht, hs]
  rw [hclean]
  simp [hs]

/-- Witness for `C2_silence_timeout`: a 3001 ms gap between two identical
"hello" ticks fails with the silence reason; a 2000 ms gap stays "ok". -/
theorem C2_silence_timeout_witness :
    tick ⟨0, "hello", 0, true⟩ 3001 (some "hello") =
      (⟨"fail", some "Silence detected (> 3s)"⟩, none) ∧
    tick ⟨0, "hello", 0, true⟩ 2000 (some "hello") =
      (⟨"ok", none⟩, some ⟨0, "hello", 0, true⟩) := by
  constructor
  · have h := C2_silence_timeout ⟨0, "hello", 0, true⟩ 3001 "hello" rfl (by decide) (by decide)
    rw [h]
    norm_num
  · have h := C2_silence_timeout ⟨0, "hello", 0, true⟩ 2000 "hello" rfl (by decide) (by decide)
    rw [h]
    norm_num

/-! ## Claim C3 — filler scan precedence -/

/-- C3.  If the case-folded tokens of a tick's normalized transcript contain
a lexicon filler (`find?` returns the first one, `w`), the tick fails with a
reason citing `w` and the record is deleted (`none`), whatever the
challenge's state — so the repetition and stagnation checks of the same tick
are skipped. -/
theorem C3_filler_fail (c : Challenge) (now : Int) (t w : String)
    (hw : (tokenize (jsTrim t)).find? (fun x => challengeFillers.contains x) = some w) :
    tick c now (some t) = (⟨"fail", some ("Stuttered: \"" ++ w ++ "\"")⟩, none) ∧
    mentionsIn w ("Stuttered: \"" ++ w ++ "\"") := by
  have hlen : 0 < (jsTrim t).length := by
    rcases Nat.eq_zero_or_pos (jsTrim t).length with h0 | h0
    · rw [tokenize_empty _ h0] at hw
      simp at hw
    · exact h0
  have hif : instantFail (jsTrim t) = some ("Stuttered: \"" ++ w ++ "\"") := by
    simp only [instantFail, if_pos hlen]
    rw [hw]
  constructor
  · simp only [tick, Option.getD_some]
    rw [hif]
  · exact mentionsIn_append_middle "Stuttered: \"" w "\""

/-- Witness for `C3_filler_fail`: transcript "um hello" on a fresh challenge
fails citing "um", deleting the record. -/
theorem C3_filler_fail_witness :
    tick (startChallenge 0) 500 (some "um hello") =
      (⟨"fail", some "Stuttered: \"um\""⟩, none) ∧
    mentionsIn "um" "Stuttered: \"um\"" := by
  have h := C3_filler_fail (startChallenge 0) 500 "um hello" "um" (by decide)
  exact ⟨h.1.trans (by decide), h.2⟩

/-! ## Claim C4 — adjacent repetition -/

/-- C4, counterexample.  On transcript "I I am fine" the tick does fail and
delete the record, but the reason is the case-folded `Repetition: "i i"`,
which does not contain the substring "I I" the claim requires. -/
theorem C4_counterexample :
    tick (startChallenge 0) 500 (some "I I am fine") =
      (⟨"fail", some "Repetition: \"i i\""⟩, none) ∧
    ¬ mentionsIn "I I" "Repetition: \"i i\"" := by decide

/-- C4, amended: for every active challenge, a tick with transcript
"I I am fine" (no filler token, two adjacent identical tokens after
case-folding) fails with a reason mentioning the case-folded pair "i i",
and the record is removed. -/
theorem C4_repetition_fail (c : Challenge) (now : Int) :
    tick c now (some "I I am fine") = (⟨"fail", some "Repetition: \"i i\""⟩, none) ∧
    mentionsIn "i i" "Repetition: \"i i\"" := by
  constructor
  · simp only [tick, Option.getD_some]
    rw [show instantFail (jsTrim "I I am fine") = some "Repetition: \"i i\"" from by decide]
  · decide

/-! ## Claim C9 — what `lastTranscript` stores -/

/-- C9, counterexample.  Start, then tick "hello" (the record now stores the
non-empty "hello"), then tick a whitespace-only transcript: the tick answers
"ok", the record persists, and its `lastTranscript` is now the **empty**
string, although a non-empty transcript had been observed — the stagnation
branch stores the new normalized text even when it is empty. -/
theorem C9_counterexample :
    tick (startChallenge 0) 100 (some "hello") =
      (⟨"ok", none⟩, some ⟨0, "hello", 100, true⟩) ∧
    tick ⟨0, "hello", 100, true⟩ 200 (some " ") =
      (⟨"ok", none⟩, some ⟨0, "", 200, true⟩) := by decide

/-- C9, amended: after every tick that answers "ok" and leaves a record in
place, if the record is in the speaking state then `lastTranscript` is
exactly the tick's normalized (trimmed) transcript — **including the empty
string** for a whitespace-only tick after speech has begun; if the record is
still not speaking, it is unchanged. -/
theorem C9_lastTranscript (c : Challenge) (now : Int) (t : Option String) (c' : Challenge)
    (h : tick c now t = (⟨"ok", none⟩, some c')) :
    (c'.isSpeaking = true → c'.lastTranscript = jsTrim (t.getD "")) ∧
    (c'.isSpeaking = false → c' = c) := by
  simp only [tick] at h
  cases hif : instantFail (jsTrim (t.getD "")) with
  | some r => rw [hif] at h; simp at h
  | none =>
    rw [hif] at h
    split at h
    next heq => exact absurd heq (by simp)
    next =>
      split at h
      · -- speaking onset occurred on this tick
        split at h
        · rw [if_neg (by simp)] at h
          split at h
          · simp at h
          · have h2 := congrArg Prod.snd h
            simp only [Option.some.injEq] at h2
            subst h2
            simp
        · simp_all
      · -- no onset
        split at h
        · split at h
          · -- transcript changed
            have h2 := congrArg Prod.snd h
            simp only [Option.some.injEq] at h2
            subst h2
            simp_all
          · -- transcript unchanged
            split at h
            · simp at h
            · have h2 := congrArg Prod.snd h
              simp only [Option.some.injEq] at h2
              subst h2
              simp_all
        · have h2 := congrArg Prod.snd h
          simp only [Option.some.injEq] at h2
          subst h2
          simp_all

/-- Witness for `C9_lastTranscript`, at the concrete second tick of the
counterexample trace. -/
theorem C9_lastTranscript_witness :
    (Challenge.mk 0 "" 200 true).isSpeaking = true ∧
    (Challenge.mk 0 "" 200 true).lastTranscript = jsTrim ((some " ").getD "") :=
  ⟨rfl, (C9_lastTranscript ⟨0, "hello", 100, true⟩ 200 (some " ") ⟨0, "", 200, true⟩
    (by decide)).1 rfl⟩

/-! ## Claim C10 — ticks before speech onset -/

/-- C10.  Before the speaking state is entered, a tick whose transcript is
absent, empty, or whitespace-only answers "ok" and leaves the record
unchanged, for every elapsed time — the silence timeout cannot fire before
the first non-empty transcript. -/
theorem C10_empty_before_speech (c : Challenge) (now : Int) (t : Option String)
    (hs : c.isSpeaking = false)
    (ht : (jsTrim (t.getD "")).length = 0) :
    tick c now t = (⟨"ok", none⟩, some c) := by
  simp only [tick]
  rw [instantFail_empty _ ht]
  simp [hs, ht]

/-- Witness for `C10_empty_before_speech`: a whitespace-only and an absent
transcript on a fresh challenge, a million milliseconds after it started. -/
theorem C10_empty_before_speech_witness :
    tick (startChallenge 0) 1000000 (some "   ") = (⟨"ok", none⟩, some (startChallenge 0)) ∧
    tick (startChallenge 0) 1000000 none = (⟨"ok", none⟩, some (startChallenge 0)) :=
  ⟨C10_empty_before_speech (startChallenge 0) 1000000 (some "   ") rfl (by decide),
   C10_empty_before_speech (startChallenge 0) 1000000 none rfl (by decide)⟩

/-! ## Supporting lemmas about the progression engine -/

theorem awardBadge_fst_xp (n : String) (p : User × List String) :
    (awardBadge n p).1.xp = p.1.xp := by
  obtain ⟨u, nb⟩ := p
  simp only [awardBadge]
  split <;> rfl

theorem awardBadge_fst_level (n : String) (p : User × List String) :
    (awardBadge n p).1.level = p.1.level := by
  obtain ⟨u, nb⟩ := p
  simp only [awardBadge]
  split <;> rfl

theorem awardBadge_fst_streak (n : String) (p : User × List String) :
    (awardBadge n p).1.streak = p.1.streak := by
  obtain ⟨u, nb⟩ := p
  simp only [awardBadge]
  split <;> rfl

theorem awardBadge_fst_lastActiveDate (n : String) (p : User × List String) :
    (awardBadge n p).1.lastActiveDate = p.1.lastActiveDate := by
  obtain ⟨u, nb⟩ := p
  simp only [awardBadge]
  split <;> rfl

theorem applyBadges_xp (u : User) (f : Int) : (applyBadges u f).1.xp = u.xp := by
  simp only [applyBadges]
  split_ifs <;> simp [awardBadge_fst_xp]

theorem applyBadges_level (u : User) (f : Int) : (applyBadges u f).1.level = u.level := by
  simp only [applyBadges]
  split_ifs <;> simp [awardBadge_fst_level]

theorem applyBadges_streak (u : User) (f : Int) : (applyBadges u f).1.streak = u.streak := by
  simp only [applyBadges]
  split_ifs <;> simp [awardBadge_fst_streak]

theorem applyBadges_lastActiveDate (u : User) (f : Int) :
    (applyBadges u f).1.lastActiveDate = u.lastActiveDate := by
  simp only [applyBadges]
  split_ifs <;> simp [awardBadge_fst_lastActiveDate]

theorem applyStreak_xp (u : User) (t y : String) : (applyStreak u t y).xp = u.xp := by
  unfold applyStreak
  split <;> rfl

theorem applyStreak_badges (u : User) (t y : String) : (applyStreak u t y).badges = u.badges := by
  unfold applyStreak
  split <;> rfl

/-- The invariant the badge-awarding phase maintains for one badge name `b`,
relative to the pre-call badge list `bs0`: `b` occurs at most once in the
profile's badges, the original badges are all still present, `b` is only in
`newBadges` if it was newly added, and badges already held never re-enter
`newBadges`. -/
def badgeInv (b : String) (bs0 : List String) (p : User × List String) : Prop :=
  p.1.badges.count b ≤ 1 ∧
  bs0 ⊆ p.1.badges ∧
  (b ∈ bs0 → b ∉ p.2) ∧
  (b ∈ p.2 → b ∈ p.1.badges ∧ b ∉ bs0)

theorem badgeInv_awardBadge (b : String) (bs0 : List String) (n : String)
    (p : User × List String) (h : badgeInv b bs0 p) : badgeInv b bs0 (awardBadge n p) := by
  obtain ⟨u, nb⟩ := p
  obtain ⟨h1, h2, h3, h4⟩ := h
  dsimp only at h1 h2 h3 h4
  simp only [awardBadge]
  split
  · exact ⟨h1, h2, h3, h4⟩
  · rename_i hc
    have hnmem : n ∉ u.badges := by
      intro hmem
      exact hc (by simpa using hmem)
    refine ⟨?_, ?_, ?_, ?_⟩
    · rw [List.count_append]
      by_cases hbn : b = n
      · subst hbn
        rw [List.count_eq_zero_of_not_mem hnmem]
        simp
      · have : List.count b [n] = 0 :=
          List.count_eq_zero_of_not_mem (by simp [hbn])
        omega
    · exact h2.trans (List.subset_append_left _ _)
    · intro hb
      simp only [List.mem_append, List.mem_singleton]
      rintro (hnb | rfl)
      · exact h3 hb hnb
      · exact hnmem (h2 hb)
    · intro hb
      simp only [List.mem_append, List.mem_singleton] at hb
      rcases hb with hnb | rfl
      · obtain ⟨hm, hn0⟩ := h4 hnb
        exact ⟨List.mem_append_left _ hm, hn0⟩
      · refine ⟨List.mem_append_right _ (by simp), fun hb0 => hnmem (h2 hb0)⟩

theorem badgeInv_ite (b : String) (bs0 : List String) (n : String) (cond : Prop)
    [Decidable cond] (p : User × List String) (h : badgeInv b bs0 p) :
    badgeInv b bs0 (if cond then awardBadge n p else p) := by
  split
  · exact badgeInv_awardBadge b bs0 n p h
  · exact h

theorem applyBadges_inv (b : String) (u : User) (f : Int)
    (h : u.badges.count b ≤ 1) : badgeInv b u.badges (applyBadges u f) := by
  simp only [applyBadges]
  apply badgeInv_ite
  apply badgeInv_ite
  apply badgeInv_ite
  apply badgeInv_ite
  apply badgeInv_ite
  exact ⟨h, fun x hx => hx, fun _ => by simp, by simp⟩

/-- Every profile the system creates starts with a duplicate-free badge list
(`["First Step"]` for the seeded demo user, `[]` otherwise), so the
at-most-once hypothesis of the claim-C7 theorem holds of every reachable
profile by induction. -/
theorem initial_badges_count (b t un pw uid : String) :
    (seedUser t).badges.count b ≤ 1 ∧ (registerUser un pw).badges.count b ≤ 1 ∧
    (coachFallbackUser uid).badges.count b ≤ 1 := by
  refine ⟨?_, by simp [registerUser], by simp [coachFallbackUser]⟩
  by_cases hb : b = "First Step" <;>
    simp [seedUser, List.count_cons, hb]

/-- The profile the badge phase receives: its badges are exactly the input
profile's badges (the stats, streak and xp phases never touch them). -/
theorem preBadge_badges (u : User) (d f : Int) (t y : String) :
    (applyXp (applyStreak (applyStats u d t) t y) (earnedXpOf d f)).badges = u.badges := by
  show (applyStreak (applyStats u d t) t y).badges = u.badges
  rw [applyStreak_badges]
  rfl

/-! ## Claim C5 — level/xp invariant -/

/-- C5.  `level = floor(xp/100) + 1` holds for every profile the system
creates (the seeded demo user, a registered user, the `/coach` lazy
fallback) and is re-established by every progression-engine call, whatever
the stored profile held before. -/
theorem C5_level_invariant :
    (∀ today, (seedUser today).level = Int.fdiv (seedUser today).xp 100 + 1) ∧
    (∀ un pw, (registerUser un pw).level = Int.fdiv (registerUser un pw).xp 100 + 1) ∧
    (∀ uid, (coachFallbackUser uid).level = Int.fdiv (coachFallbackUser uid).xp 100 + 1) ∧
    (∀ u d f t y, (updateGamification u d f t y).1.level
      = Int.fdiv ((updateGamification u d f t y).1.xp) 100 + 1) := by
  refine ⟨fun today => rfl, fun un pw => rfl, fun uid => rfl, fun u d f t y => ?_⟩
  show (applyBadges (applyXp _ _) f).1.level = Int.fdiv (applyBadges (applyXp _ _) f).1.xp 100 + 1
  rw [applyBadges_level, applyBadges_xp]
  rfl

/-! ## Claim C6 — streak update -/

/-- C6.  With `yesterday ≠ today` (distinct calendar dates), one
progression-engine call increments the streak by exactly 1 when
`lastActiveDate` was yesterday, resets it to 1 when `lastActiveDate` was any
other date different from today, sets `lastActiveDate` to today in both
cases, and leaves streak and `lastActiveDate` untouched when
`lastActiveDate` was already today. -/
theorem C6_streak (u : User) (d f : Int) (today yesterday : String)
    (hyt : yesterday ≠ today) :
    (u.lastActiveDate = some yesterday →
      (updateGamification u d f today yesterday).1.streak = u.streak + 1 ∧
      (updateGamification u d f today yesterday).1.lastActiveDate = some today) ∧
    (u.lastActiveDate ≠ some today → u.lastActiveDate ≠ some yesterday →
      (updateGamification u d f today yesterday).1.streak = 1 ∧
      (updateGamification u d f today yesterday).1.lastActiveDate = some today) ∧
    (u.lastActiveDate = some today →
      (updateGamification u d f today yesterday).1.streak = u.streak ∧
      (updateGamification u d f today yesterday).1.lastActiveDate = u.lastActiveDate) := by
  have hstreak : (updateGamification u d f today yesterday).1.streak
      = (applyStreak (applyStats u d today) today yesterday).streak := by
    show (applyBadges _ f).1.streak = _
    rw [applyBadges_streak]
    rfl
  have hlad : (updateGamification u d f today yesterday).1.lastActiveDate
      = (applyStreak (applyStats u d today) today yesterday).lastActiveDate := by
    show (applyBadges _ f).1.lastActiveDate = _
    rw [applyBadges_lastActiveDate]
    rfl
  have hstats_lad : (applyStats u d today).lastActiveDate = u.lastActiveDate := rfl
  have hstats_streak : (applyStats u d today).streak = u.streak := rfl
  refine ⟨fun h1 => ?_, fun h2 h3 => ?_, fun h4 => ?_⟩
  · rw [hstreak, hlad]
    unfold applyStreak
    rw [if_pos (by rw [hstats_lad, h1]; simp [hyt])]
    rw [hstats_lad, h1]
    simp [hstats_streak]
  · rw [hstreak, hlad]
    unfold applyStreak
    rw [if_pos (by rw [hstats_lad]; exact h2)]
    rw [hstats_lad]
    simp [h3]
  · rw [hstreak, hlad]
    unfold applyStreak
    rw [if_neg (by rw [hstats_lad, h4]; simp)]
    rw [hstats_streak, hstats_lad]
    exact ⟨rfl, rfl⟩

/-- Witness for `C6_streak`: a profile last active on 2026-10-10, updated on
2026-10-11, goes from streak 3 to streak 4 and its date moves to today. -/
theorem C6_streak_witness :
    (updateGamification ⟨"w", none, 0, 1, 3, some "2026-10-10", [], ⟨0, 0, 0⟩⟩
        60 0 "2026-10-11" "2026-10-10").1.streak = 3 + 1 ∧
    (updateGamification ⟨"w", none, 0, 1, 3, some "2026-10-10", [], ⟨0, 0, 0⟩⟩
        60 0 "2026-10-11" "2026-10-10").1.lastActiveDate = some "2026-10-11" :=
  (C6_streak ⟨"w", none, 0, 1, 3, some "2026-10-10", [], ⟨0, 0, 0⟩⟩
    60 0 "2026-10-11" "2026-10-10" (by decide)).1 rfl

/-! ## Claim C7 — badge idempotence -/

/-- C7.  If a badge occurs at most once in a profile's badge list, then after
any progression-engine call it still occurs at most once; a badge already
held never re-enters `newBadges`; and a badge in `newBadges` is newly on the
profile — it was not held before the call.  By induction this gives, across
any sequence of calls, at most one occurrence ever and membership in
`newBadges` only on the call that first awards the badge. -/
theorem C7_badge_idempotence (u : User) (d f : Int) (t y b : String)
    (h : u.badges.count b ≤ 1) :
    (updateGamification u d f t y).1.badges.count b ≤ 1 ∧
    (b ∈ u.badges → b ∉ (updateGamification u d f t y).2.2) ∧
    (b ∈ (updateGamification u d f t y).2.2 →
      b ∈ (updateGamification u d f t y).1.badges ∧ b ∉ u.badges) := by
  have hpre := preBadge_badges u d f t y
  have hinv := applyBadges_inv b (applyXp (applyStreak (applyStats u d t) t y)
    (earnedXpOf d f)) f (by rw [hpre]; exact h)
  rw [hpre] at hinv
  obtain ⟨h1, _, h3, h4⟩ := hinv
  exact ⟨h1, h3, h4⟩

/-- Witness for `C7_badge_idempotence`: the seeded demo user already holds
"First Step"; one more call neither duplicates it nor reports it as new. -/
theorem C7_badge_idempotence_witness :
    (updateGamification (seedUser "2026-10-11") 60 0 "2026-10-11"
        "2026-10-10").1.badges.count "First Step" ≤ 1 ∧
    "First Step" ∉ (updateGamification (seedUser "2026-10-11") 60 0 "2026-10-11"
        "2026-10-10").2.2 :=
  ⟨(C7_badge_idempotence (seedUser "2026-10-11") 60 0 "2026-10-11" "2026-10-10"
      "First Step" (by decide)).1,
   (C7_badge_idempotence (seedUser "2026-10-11") 60 0 "2026-10-11" "2026-10-10"
      "First Step" (by decide)).2.1 (by decide)⟩

/-! ## Claim C8 — xp monotonicity -/

/-- C8, counterexample.  The progression engine accepts any session duration
the client sends; on a freshly registered profile (xp 0) a call with
duration −200 seconds earns `10 + floor(−200/10) = −10` xp, so the stored xp
decreases from 0 to −10. -/
theorem C8_counterexample :
    (registerUser "bob" "pw").xp = 0 ∧
    (updateGamification (registerUser "bob" "pw") (-200) 0
      "2026-10-11" "2026-10-10").1.xp = -10 := by decide

/-- C8, amended: for every profile and every call with a **non-negative**
session duration (and any fluency score), the stored xp never decreases. -/
theorem C8_xp_monotone (u : User) (d f : Int) (t y : String) (hd : 0 ≤ d) :
    u.xp ≤ (updateGamification u d f t y).1.xp := by
  have hxp : (updateGamification u d f t y).1.xp
      = (applyStreak (applyStats u d t) t y).xp + earnedXpOf d f := by
    show (applyBadges _ f).1.xp = _
    rw [applyBadges_xp]
    rfl
  have hsx : (applyStreak (applyStats u d t) t y).xp = u.xp := by
    rw [applyStreak_xp]
    rfl
  have hfd : 0 ≤ Int.fdiv d 10 := Int.fdiv_nonneg hd (by norm_num)
  rw [hxp, hsx]
  unfold earnedXpOf
  split <;> omega

/-- Witness for `C8_xp_monotone`: a 60-second session on a fresh profile. -/
theorem C8_xp_monotone_witness :
    (registerUser "alice" "pw").xp
      ≤ (updateGamification (registerUser "alice" "pw") 60 95
          "2026-10-11" "2026-10-10").1.xp :=
  C8_xp_monotone (registerUser "alice" "pw") 60 95 "2026-10-11" "2026-10-10"
    (by norm_num)
